import Mathlib

/-!
Verification of the GrabNthrow gesture-physics engine.

The JavaScript sources (`physicsObject.js`, `handTracker.js`, the `Game`
update loop and `sceneManager.js`) are embedded shallowly: JS numbers are
modelled as real numbers, `Math.sqrt` as `Real.sqrt`, `THREE.Vector3`
as the `Vec3` structure below, and the mutating THREE.js vector methods
as pure functions returning the updated value.  `Math.random()` results
are passed in as explicit parameters.
-/

namespace GrabThrow

noncomputable section

/-- Source: `THREE.Vector3`, components as real numbers. -/
@[ext] structure Vec3 where
  x : ℝ
  y : ℝ
  z : ℝ

namespace Vec3

/-- Source: `THREE.Vector3.add` (pure). -/
def add (a b : Vec3) : Vec3 := ⟨a.x + b.x, a.y + b.y, a.z + b.z⟩

/-- Source: `THREE.Vector3.sub` / `subVectors` (pure). -/
def sub (a b : Vec3) : Vec3 := ⟨a.x - b.x, a.y - b.y, a.z - b.z⟩

/-- Source: `THREE.Vector3.multiplyScalar` (pure). -/
def scale (s : ℝ) (v : Vec3) : Vec3 := ⟨s * v.x, s * v.y, s * v.z⟩

/-- Source: `THREE.Vector3.divideScalar`: multiply by the inverse. -/
def divideScalar (v : Vec3) (s : ℝ) : Vec3 := scale (1 / s) v

/-- Source: `THREE.Vector3.addScaledVector` (pure). -/
def addScaled (v w : Vec3) (s : ℝ) : Vec3 :=
  ⟨v.x + w.x * s, v.y + w.y * s, v.z + w.z * s⟩

/-- Source: `THREE.Vector3.dot`. -/
def dot (a b : Vec3) : ℝ := a.x * b.x + a.y * b.y + a.z * b.z

/-- Source: `THREE.Vector3.length`: `sqrt(x*x + y*y + z*z)`. -/
def length (v : Vec3) : ℝ := Real.sqrt (v.x * v.x + v.y * v.y + v.z * v.z)

/-- Source: `THREE.Vector3.distanceTo`. -/
def distanceTo (a b : Vec3) : ℝ := length (sub a b)

/-- Source: `THREE.Vector3.normalize`: `divideScalar(length() || 1)` — a zero
length falls back to dividing by 1, so the zero vector stays zero. -/
def normalize (v : Vec3) : Vec3 :=
  divideScalar v (if length v = 0 then 1 else length v)

/-- Source: `THREE.Vector3.lerp` with interpolation factor `t`. -/
def lerp (a b : Vec3) (t : ℝ) : Vec3 :=
  ⟨a.x + (b.x - a.x) * t, a.y + (b.y - a.y) * t, a.z + (b.z - a.z) * t⟩

lemma scale_one (v : Vec3) : scale 1 v = v := by
  simp [scale]

lemma scale_zero_vec (c : ℝ) : scale c ⟨0, 0, 0⟩ = ⟨0, 0, 0⟩ := by
  simp [scale]

lemma add_zero_vec (v : Vec3) : add v ⟨0, 0, 0⟩ = v := by
  simp [add]

lemma sub_zero_vec (v : Vec3) : sub v ⟨0, 0, 0⟩ = v := by
  simp [sub]

lemma sub_self (v : Vec3) : sub v v = ⟨0, 0, 0⟩ := by
  simp [sub]

lemma dot_zero_right (v : Vec3) : dot v ⟨0, 0, 0⟩ = 0 := by
  simp [dot]

lemma length_nonneg (v : Vec3) : 0 ≤ length v := Real.sqrt_nonneg _

lemma length_zero_vec : length ⟨0, 0, 0⟩ = 0 := by
  simp [length]

lemma normalize_zero_vec : normalize ⟨0, 0, 0⟩ = ⟨0, 0, 0⟩ := by
  simp [normalize, divideScalar, length_zero_vec, scale]

lemma length_scale (c : ℝ) (v : Vec3) : length (scale c v) = |c| * length v := by
  unfold length scale
  rw [show c * v.x * (c * v.x) + c * v.y * (c * v.y) + c * v.z * (c * v.z)
        = c ^ 2 * (v.x * v.x + v.y * v.y + v.z * v.z) by ring,
      Real.sqrt_mul (sq_nonneg c), Real.sqrt_sq_eq_abs]

lemma length_pos_of_ne (v : Vec3) (h : length v ≠ 0) : 0 < length v :=
  lt_of_le_of_ne (length_nonneg v) (Ne.symm h)

lemma normalize_eq_scale (v : Vec3) (h : length v ≠ 0) :
    normalize v = scale (1 / length v) v := by
  simp [normalize, divideScalar, h]

lemma length_normalize (v : Vec3) (h : length v ≠ 0) :
    length (normalize v) = 1 := by
  have hpos := length_pos_of_ne v h
  rw [normalize_eq_scale v h, length_scale,
      abs_of_pos (by positivity : (0 : ℝ) < 1 / length v)]
  field_simp

lemma normalize_idem (v : Vec3) (h : length v ≠ 0) :
    normalize (normalize v) = normalize v := by
  have h1 := length_normalize v h
  rw [normalize_eq_scale (normalize v) (by rw [h1]; norm_num), h1]
  simp [scale_one]

end Vec3

/-! ## Constants of `physicsObject.js` -/

/-- Source: `GRAVITY = new THREE.Vector3(0, -9.81, 0)`. -/
def GRAVITY : Vec3 := ⟨0, -9.81, 0⟩

/-- Source: `GROUND_Y = 0.001` in `physicsObject.js`. -/
def GROUND_Y : ℝ := 0.001

/-- Source: `DAMPING_FACTOR = 0.98`. -/
def DAMPING_FACTOR : ℝ := 0.98

/-- Source: `ANGULAR_DAMPING_FACTOR = 0.95`. -/
def ANGULAR_DAMPING_FACTOR : ℝ := 0.95

/-- Source: `COLLISION_ELASTICITY = 0.7`. -/
def COLLISION_ELASTICITY : ℝ := 0.7

/-- Source: `BALL_RADIUS = 0.25`. -/
def BALL_RADIUS : ℝ := 0.25

/-- Three `Math.random()` samples, one per vector component. -/
structure Rand3 where
  r1 : ℝ
  r2 : ℝ
  r3 : ℝ

/-- Source: `((Math.random() - 0.5) * s, ...)` — the random spin vector built by
`release` (with `s = 4`) and `resolveCollision` (with `s = 0.8`). -/
def spinOf (r : Rand3) (s : ℝ) : Vec3 :=
  ⟨(r.r1 - 0.5) * s, (r.r2 - 0.5) * s, (r.r3 - 0.5) * s⟩

/-- The physics-relevant state of a `PhysicsObject` (`mesh.position` and
`mesh.rotation` folded in as `position` / `rotation`). -/
structure Body where
  position : Vec3
  rotation : Vec3
  velocity : Vec3
  angularVelocity : Vec3
  isHeld : Bool
  radius : ℝ
  mass : ℝ
  lastCollisionTime : ℝ

/-- Source: `PhysicsObject.grab`: set `isHeld`, zero both velocity vectors (the
emissive-material highlight is render state, outside this model). -/
def grab (b : Body) : Body :=
  { b with isHeld := true, velocity := ⟨0, 0, 0⟩, angularVelocity := ⟨0, 0, 0⟩ }

/-- Source: `PhysicsObject.release(direction, force)`:
`velocity.copy(direction).normalize().multiplyScalar(force)` and a fresh
random spin `(Math.random() - 0.5) * 4` per component. -/
def release (direction : Vec3) (force : ℝ) (r : Rand3) (b : Body) : Body :=
  { b with isHeld := false,
           velocity := Vec3.scale force (Vec3.normalize direction),
           angularVelocity := spinOf r 4 }

/-- Source: `PhysicsObject.setPosition`: copies the position only while held. -/
def setPosition (p : Vec3) (b : Body) : Body :=
  if b.isHeld then { b with position := p } else b

/-- The held branch of `PhysicsObject.update`: smooth-follow the hand with
`lerp(handPosition, 0.8)` and stop all physics movement. -/
def heldFollow (target : Vec3) (b : Body) : Body :=
  { b with position := Vec3.lerp b.position target 0.8,
           velocity := ⟨0, 0, 0⟩,
           angularVelocity := ⟨0, 0, 0⟩ }

/-- Source: `this.velocity.addScaledVector(GRAVITY, deltaTime)`. -/
def applyGravity (dt : ℝ) (b : Body) : Body :=
  { b with velocity := Vec3.addScaled b.velocity GRAVITY dt }

/-- Source: `this.mesh.position.addScaledVector(this.velocity, deltaTime)`. -/
def advancePosition (dt : ℝ) (b : Body) : Body :=
  { b with position := Vec3.addScaled b.position b.velocity dt }

/-- Source: `mesh.rotation += angularVelocity * dt`, component-wise. -/
def advanceRotation (dt : ℝ) (b : Body) : Body :=
  { b with rotation := ⟨b.rotation.x + b.angularVelocity.x * dt,
                        b.rotation.y + b.angularVelocity.y * dt,
                        b.rotation.z + b.angularVelocity.z * dt⟩ }

/-- Source: `velocity *= DAMPING_FACTOR; angularVelocity *= ANGULAR_DAMPING_FACTOR`. -/
def applyDamping (b : Body) : Body :=
  { b with velocity := Vec3.scale DAMPING_FACTOR b.velocity,
           angularVelocity := Vec3.scale ANGULAR_DAMPING_FACTOR b.angularVelocity }

/-- The ground-collision block of `PhysicsObject.update`: clamp to
`GROUND_Y + radius`, bounce `velocity.y` with restitution `0.5`, apply
rolling friction `0.9` on x/z, then set the angular velocity from the
rolling axis (or damp it by `0.9` when there is no horizontal motion). -/
def groundBounce (b : Body) : Body :=
  if b.position.y < GROUND_Y + b.radius then
    let v : Vec3 := ⟨b.velocity.x * 0.9, b.velocity.y * (-0.5), b.velocity.z * 0.9⟩
    let rollAxis := Vec3.normalize ⟨-v.z, 0, v.x⟩
    let rollSpeed := Vec3.length v / b.radius
    { b with position := ⟨b.position.x, GROUND_Y + b.radius, b.position.z⟩,
             velocity := v,
             angularVelocity :=
               if Vec3.length rollAxis > 0.01 then Vec3.scale rollSpeed rollAxis
               else Vec3.scale 0.9 b.angularVelocity }
  else b

/-- Source: `Math.sign` (JS: `sign 0 = 0`). -/
def signR (x : ℝ) : ℝ := if x < 0 then -1 else if 0 < x then 1 else 0

/-- Source: `BOUND_X = 10` in `PhysicsObject.update`. -/
def BOUND_X : ℝ := 10

/-- Source: `BOUND_Z = 10` in `PhysicsObject.update`. -/
def BOUND_Z : ℝ := 10

/-- The x-boundary clamp of `PhysicsObject.update`. -/
def boundaryClampX (b : Body) : Body :=
  if |b.position.x| > BOUND_X - b.radius then
    { b with position := ⟨signR b.position.x * (BOUND_X - b.radius),
                          b.position.y, b.position.z⟩,
             velocity := ⟨b.velocity.x * (-0.5), b.velocity.y, b.velocity.z⟩ }
  else b

/-- The z-boundary clamp of `PhysicsObject.update`. -/
def boundaryClampZ (b : Body) : Body :=
  if |b.position.z| > BOUND_Z - b.radius then
    { b with position := ⟨b.position.x, b.position.y,
                          signR b.position.z * (BOUND_Z - b.radius)⟩,
             velocity := ⟨b.velocity.x, b.velocity.y, b.velocity.z * (-0.5)⟩ }
  else b

/-- The free-body branch of `PhysicsObject.update`, in source order:
gravity, position, rotation, damping, ground collision, x/z boundaries. -/
def integrate (dt : ℝ) (b : Body) : Body :=
  boundaryClampZ (boundaryClampX (groundBounce
    (applyDamping (advanceRotation dt (advancePosition dt (applyGravity dt b))))))

/-- Source: `PhysicsObject.update(deltaTime, handPosition = null)`:
`if (isHeld && handPosition) {follow} else if (!isHeld) {physics}`. -/
def update (dt : ℝ) (handPosition : Option Vec3) (b : Body) : Body :=
  match handPosition with
  | some target => if b.isHeld then heldFollow target b else integrate dt b
  | none => if b.isHeld then b else integrate dt b

/-- Source: `PhysicsObject.checkCollision(other)`: returns the boolean result and
the (possibly timestamp-stamped) querying body.  Held bodies are skipped,
then collisions within 100 ms of `lastCollisionTime` are debounced, then
the centre distance is compared with the sum of the radii. -/
def checkCollision (now : ℝ) (a b : Body) : Bool × Body :=
  if a.isHeld || b.isHeld then (false, a)
  else
    let minDistance := a.radius + b.radius
    let distance := Vec3.distanceTo a.position b.position
    if now - a.lastCollisionTime < 100 then (false, a)
    else if distance < minDistance then (true, { a with lastCollisionTime := now })
    else (false, a)

/-- Source: `PhysicsObject.resolveCollision(other)`: impulse along the
`normalize(this.position - other.position)` normal with restitution 0.7
split evenly, positional correction by 60% of the penetration depth, and
a random spin perturbation on both bodies. -/
def resolveCollision (ra rb : Rand3) (a b : Body) : Body × Body :=
  let collisionNormal := Vec3.normalize (Vec3.sub a.position b.position)
  let relativeVelocity := Vec3.sub a.velocity b.velocity
  let velAlongNormal := Vec3.dot relativeVelocity collisionNormal
  if velAlongNormal > 0 then (a, b)
  else
    let j := -(1 + COLLISION_ELASTICITY) * velAlongNormal
    let jDiv2 := j / 2
    let impulse := Vec3.scale jDiv2 collisionNormal
    let penetrationDepth :=
      (a.radius + b.radius) - Vec3.distanceTo a.position b.position
    let aPos := if penetrationDepth > 0
      then Vec3.add a.position (Vec3.scale (penetrationDepth * 0.6) collisionNormal)
      else a.position
    let bPos := if penetrationDepth > 0
      then Vec3.sub b.position (Vec3.scale (penetrationDepth * 0.6) collisionNormal)
      else b.position
    ({ a with velocity := Vec3.add a.velocity impulse,
              position := aPos,
              angularVelocity := Vec3.add a.angularVelocity (spinOf ra 0.8) },
     { b with velocity := Vec3.sub b.velocity impulse,
              position := bPos,
              angularVelocity := Vec3.add b.angularVelocity (spinOf rb 0.8) })

/-- One pair step of the per-tick collision pass in `Game.update`:
`if (objA.checkCollision(objB)) objA.resolveCollision(objB)`. -/
def collidePair (now : ℝ) (ra rb : Rand3) (a b : Body) : Body × Body :=
  let c := checkCollision now a b
  if c.1 then resolveCollision ra rb c.2 b else (c.2, b)

/-! ## The `Game` throw computation and hand-position history -/

/-- Source: `THROW_FORCE = 15`. -/
def THROW_FORCE : ℝ := 15

/-- Source: `THROW_HISTORY_LENGTH = 5`. -/
def THROW_HISTORY_LENGTH : ℕ := 5

/-- The throw-direction/force computation of the release branch of
`Game.update`.  Note that the source mutates `throwVector` in place:
`throwDirection = throwVector.normalize()` normalizes `throwVector`
itself, so the subsequent `throwVector.length()` used for `handSpeed` is
the length of the already-normalized vector — modelled here as
`Vec3.length dir`.  `camDir` stands for `camera.getWorldDirection`. -/
def computeThrow (camDir : Vec3) (hist : List Vec3) (dt : ℝ) : Vec3 × ℝ :=
  let dir0 : Vec3 := Vec3.normalize ⟨0, 0.3, -1⟩
  let p : Vec3 × ℝ :=
    if 2 ≤ hist.length then
      let startPos := hist.getD 0 ⟨0, 0, 0⟩
      let endPos := hist.getD (hist.length - 1) ⟨0, 0, 0⟩
      let throwVector := Vec3.sub endPos startPos
      if Vec3.length throwVector > 0.05 then
        let amplified : Vec3 :=
          ⟨throwVector.x * 2.5, max 0.2 throwVector.y, throwVector.z * 2.5⟩
        let dir := Vec3.normalize amplified
        let handSpeed := Vec3.length dir / ((hist.length : ℝ) * dt)
        (dir, min (THROW_FORCE * 1.5) (max (THROW_FORCE * 0.7) (handSpeed * 5)))
      else (dir0, THROW_FORCE)
    else (dir0, THROW_FORCE)
  if Vec3.length p.1 < 0.1 then
    (⟨camDir.x, max 0.2 (camDir.y + 0.2), camDir.z⟩, p.2)
  else p

/-- Source: `handPositionHistory.push(p); if (length > THROW_HISTORY_LENGTH) shift()`. -/
def pushTrim (hist : List Vec3) (p : Vec3) : List Vec3 :=
  let h := hist ++ [p]
  if THROW_HISTORY_LENGTH < h.length then h.drop 1 else h

/-- The per-tick effect of `Game.update` on `handPositionHistory` for a
tick in which a hand is present, the pinch is active and an object is
already held: the hand-indicator section pushes the current position
unconditionally, then the holding branch pushes again only when the last
recorded sample is more than `0.01` away from the current position. -/
def holdingHistoryTick (pos : Vec3) (hist : List Vec3) : List Vec3 :=
  let h1 := pushTrim hist pos
  if 0 < h1.length then
    if Vec3.distanceTo (h1.getLastD ⟨0, 0, 0⟩) pos > 0.01 then pushTrim h1 pos
    else h1
  else h1

/-! ## `HandTracker.estimateDepth` -/

/-- A 2D landmark as used by `estimateDepth` (only x and y are read). -/
structure Landmark where
  lx : ℝ
  ly : ℝ

/-- Source: `Math.sqrt(Math.pow(p1.x - p2.x, 2) + Math.pow(p1.y - p2.y, 2))`. -/
def dist2 (p q : Landmark) : ℝ :=
  Real.sqrt ((p.lx - q.lx) ^ 2 + (p.ly - q.ly) ^ 2)

/-- Source: `landmarks[i]` with the JS array read modelled as a defaulted get. -/
def lmGet (l : List Landmark) (i : ℕ) : Landmark := l.getD i ⟨0, 0⟩

/-- The `(i, j)` index pairs enumerated by the double loop over
`points = [0, 5, 9, 13, 17]` (wrist and finger bases). -/
def refPairs : List (ℕ × ℕ) :=
  [(0, 5), (0, 9), (0, 13), (0, 17), (5, 9), (5, 13), (5, 17),
   (9, 13), (9, 17), (13, 17)]

/-- Source: `totalDistance`: sum of the pairwise distances of the loop. -/
def totalSpread (l : List Landmark) : ℝ :=
  (refPairs.map (fun ij => dist2 (lmGet l ij.1) (lmGet l ij.2))).sum

/-- Source: `avgSize = totalDistance / count` with `count = 10`. -/
def avgSize (l : List Landmark) : ℝ :=
  totalSpread l / (refPairs.length : ℝ)

/-- Source: `HandTracker.estimateDepth`: 0.5 when no landmarks or fewer than 5,
else `1 - clamp01((avgSize - 0.05) / (0.3 - 0.05))`. -/
def estimateDepth (landmarks : Option (List Landmark)) : ℝ :=
  match landmarks with
  | none => 0.5
  | some l =>
    if l.length < 5 then 0.5
    else 1.0 - max 0 (min 1 ((avgSize l - 0.05) / (0.3 - 0.05)))

/-! ## Helper lemmas -/

lemma applyGravity_isHeld (dt : ℝ) (b : Body) : (applyGravity dt b).isHeld = b.isHeld := rfl

lemma advancePosition_isHeld (dt : ℝ) (b : Body) :
    (advancePosition dt b).isHeld = b.isHeld := rfl

lemma advanceRotation_isHeld (dt : ℝ) (b : Body) :
    (advanceRotation dt b).isHeld = b.isHeld := rfl

lemma applyDamping_isHeld (b : Body) : (applyDamping b).isHeld = b.isHeld := rfl

lemma groundBounce_isHeld (b : Body) : (groundBounce b).isHeld = b.isHeld := by
  unfold groundBounce; split <;> rfl

lemma boundaryClampX_isHeld (b : Body) : (boundaryClampX b).isHeld = b.isHeld := by
  unfold boundaryClampX; split <;> rfl

lemma boundaryClampZ_isHeld (b : Body) : (boundaryClampZ b).isHeld = b.isHeld := by
  unfold boundaryClampZ; split <;> rfl

lemma integrate_isHeld (dt : ℝ) (b : Body) : (integrate dt b).isHeld = b.isHeld := by
  unfold integrate
  rw [boundaryClampZ_isHeld, boundaryClampX_isHeld, groundBounce_isHeld,
      applyDamping_isHeld, advanceRotation_isHeld, advancePosition_isHeld,
      applyGravity_isHeld]

lemma groundBounce_radius (b : Body) : (groundBounce b).radius = b.radius := by
  unfold groundBounce; split <;> rfl

lemma boundaryClampX_radius (b : Body) : (boundaryClampX b).radius = b.radius := by
  unfold boundaryClampX; split <;> rfl

lemma boundaryClampZ_radius (b : Body) : (boundaryClampZ b).radius = b.radius := by
  unfold boundaryClampZ; split <;> rfl

lemma boundaryClampX_posy (b : Body) :
    (boundaryClampX b).position.y = b.position.y := by
  unfold boundaryClampX; split <;> rfl

lemma boundaryClampZ_posy (b : Body) :
    (boundaryClampZ b).position.y = b.position.y := by
  unfold boundaryClampZ; split <;> rfl

lemma groundBounce_above (b : Body) :
    GROUND_Y + b.radius ≤ (groundBounce b).position.y := by
  unfold groundBounce
  split
  · rfl
  · next h => exact le_of_not_lt h

lemma checkCollision_snd_of_false (now : ℝ) (a b : Body)
    (h : (checkCollision now a b).1 = false) : (checkCollision now a b).2 = a := by
  unfold checkCollision at h ⊢
  dsimp only at h ⊢
  split_ifs at h ⊢
  all_goals simp_all

lemma checkCollision_true_elim (now : ℝ) (a b : Body)
    (h : (checkCollision now a b).1 = true) :
    a.isHeld = false ∧ b.isHeld = false ∧
      (checkCollision now a b).2 = { a with lastCollisionTime := now } := by
  unfold checkCollision at h ⊢
  dsimp only at h ⊢
  split_ifs at h ⊢
  all_goals simp_all

lemma checkCollision_debounced (now : ℝ) (a b : Body)
    (h : now - a.lastCollisionTime < 100) : checkCollision now a b = (false, a) := by
  unfold checkCollision
  dsimp only
  split_ifs
  all_goals rfl

lemma resolveCollision_isHeld (ra rb : Rand3) (a b : Body) :
    (resolveCollision ra rb a b).1.isHeld = a.isHeld ∧
      (resolveCollision ra rb a b).2.isHeld = b.isHeld := by
  unfold resolveCollision
  dsimp only
  split_ifs <;> exact ⟨rfl, rfl⟩

/-- Evaluation helper: `Real.sqrt a = b` from `a = b ^ 2`. -/
lemma sqrt_eval {a b : ℝ} (hb : 0 ≤ b) (h : a = b ^ 2) : Real.sqrt a = b := by
  rw [h, Real.sqrt_sq hb]

lemma distanceTo_self (v : Vec3) : Vec3.distanceTo v v = 0 := by
  unfold Vec3.distanceTo
  rw [Vec3.sub_self, Vec3.length_zero_vec]

/-- The spec's held-body invariant: `isHeld ⇒ velocity = 0 ∧ angularVelocity = 0`. -/
def heldInv (b : Body) : Prop :=
  b.isHeld = true → b.velocity = ⟨0, 0, 0⟩ ∧ b.angularVelocity = ⟨0, 0, 0⟩

lemma heldInv_of_not_held (b : Body) (h : b.isHeld = false) : heldInv b := by
  intro hh
  rw [h] at hh
  cases hh

lemma heldInv_update (dt : ℝ) (hp : Option Vec3) (b : Body) (hb : heldInv b) :
    heldInv (update dt hp b) := by
  unfold update
  cases hp with
  | some target =>
    cases hcase : b.isHeld with
    | false =>
      simp only [hcase, Bool.false_eq_true, if_false]
      exact heldInv_of_not_held _ (by rw [integrate_isHeld]; exact hcase)
    | true =>
      simp only [hcase, if_true]
      intro _
      exact ⟨rfl, rfl⟩
  | none =>
    cases hcase : b.isHeld with
    | false =>
      simp only [hcase, Bool.false_eq_true, if_false]
      exact heldInv_of_not_held _ (by rw [integrate_isHeld]; exact hcase)
    | true =>
      simp only [hcase, if_true]
      exact hb

lemma heldInv_collidePair (now : ℝ) (ra rb : Rand3) (a b : Body)
    (ha : heldInv a) (hb : heldInv b) :
    heldInv (collidePair now ra rb a b).1 ∧ heldInv (collidePair now ra rb a b).2 := by
  unfold collidePair
  dsimp only
  cases hc : (checkCollision now a b).1 with
  | false =>
    simp only [hc, Bool.false_eq_true, if_false]
    rw [checkCollision_snd_of_false now a b hc]
    exact ⟨ha, hb⟩
  | true =>
    simp only [hc, if_true]
    obtain ⟨hA, hB, hsnd⟩ := checkCollision_true_elim now a b hc
    rw [hsnd]
    constructor
    · refine heldInv_of_not_held _ ?_
      rw [(resolveCollision_isHeld ra rb _ b).1]
      exact hA
    · refine heldInv_of_not_held _ ?_
      rw [(resolveCollision_isHeld ra rb _ b).2]
      exact hB

/-! ## Claims -/

/-- Claim C2: for every body and at every point of every tick — after grab,
release, set-position, update (integration or hand-follow) and the per-pair
collision pass — `isHeld = true` implies zero velocity and zero angular
velocity; in particular a held body's `update` never integrates gravity
(its velocity stays zero). -/
theorem held_body_zero_velocity_invariant (a b : Body) (dt now f : ℝ)
    (dir p : Vec3) (hp : Option Vec3) (r ra rb : Rand3)
    (ha : heldInv a) (hb : heldInv b) :
    heldInv (grab b) ∧ heldInv (release dir f r b) ∧ heldInv (setPosition p b) ∧
    heldInv (update dt hp b) ∧
    heldInv (collidePair now ra rb a b).1 ∧
    heldInv (collidePair now ra rb a b).2 ∧
    (b.isHeld = true →
      (update dt hp b).velocity = ⟨0, 0, 0⟩ ∧
      (update dt hp b).angularVelocity = ⟨0, 0, 0⟩) := by
  refine ⟨fun _ => ⟨rfl, rfl⟩, heldInv_of_not_held _ rfl, ?_,
    heldInv_update dt hp b hb,
    (heldInv_collidePair now ra rb a b ha hb).1,
    (heldInv_collidePair now ra rb a b ha hb).2, ?_⟩
  · unfold setPosition
    split_ifs
    · intro hh
      exact hb hh
    · exact hb
  · intro hh
    unfold update
    cases hp with
    | some target =>
      simp only [hh, if_true]
      exact ⟨rfl, rfl⟩
    | none =>
      simp only [hh, if_true]
      exact hb hh

/-- Witness for C2 at a concrete held body and a concrete free body. -/
theorem held_body_zero_velocity_invariant_witness :
    heldInv (grab (Body.mk ⟨1, 2, 3⟩ ⟨0, 0, 0⟩ ⟨4, 5, 6⟩ ⟨7, 8, 9⟩ false 0.25 1 0)) :=
  (held_body_zero_velocity_invariant
    (Body.mk ⟨0, 1, 0⟩ ⟨0, 0, 0⟩ ⟨0, 0, 0⟩ ⟨0, 0, 0⟩ true 0.25 1 0)
    (Body.mk ⟨1, 2, 3⟩ ⟨0, 0, 0⟩ ⟨4, 5, 6⟩ ⟨7, 8, 9⟩ false 0.25 1 0)
    0.016 0 15 ⟨0, 1, 0⟩ ⟨0, 0, 0⟩ none ⟨1, 1, 1⟩ ⟨1, 1, 1⟩ ⟨1, 1, 1⟩
    (fun _ => ⟨rfl, rfl⟩)
    (heldInv_of_not_held _ rfl)).1

/-- Claim C3 counterexample: a held body lerping toward a hand target below
the ground ends the tick below `GROUND_Y + radius`, so the claim's ground
guarantee does not extend to the held/hand-follow branch. -/
theorem held_lerp_below_ground_counterexample :
    (update 0.016 (some ⟨0, -1, 0⟩)
        (Body.mk ⟨0, 0.251, 0⟩ ⟨0, 0, 0⟩ ⟨0, 0, 0⟩ ⟨0, 0, 0⟩ true 0.25 1 0)).position.y
      < GROUND_Y + 0.25 := by
  unfold update heldFollow Vec3.lerp GROUND_Y
  norm_num

lemma integrate_above_ground (dt : ℝ) (c : Body) :
    GROUND_Y + c.radius ≤ (integrate dt c).position.y := by
  unfold integrate
  rw [boundaryClampZ_posy, boundaryClampX_posy]
  exact groundBounce_above
    (applyDamping (advanceRotation dt (advancePosition dt (applyGravity dt c))))

/-- Claim C3, amended: the post-integration ground guarantee
`position.y ≥ GROUND_Y + radius` holds for every non-held body after
`update`, with any `dt` and any hand-target argument; it does not cover
the held branch (see the counterexample). -/
theorem free_body_above_ground (b : Body) (dt : ℝ) (hp : Option Vec3) :
    GROUND_Y + b.radius ≤ (update dt hp { b with isHeld := false }).position.y := by
  unfold update
  cases hp with
  | some target =>
    simp only [Bool.false_eq_true, if_false]
    exact integrate_above_ground dt { b with isHeld := false }
  | none =>
    simp only [Bool.false_eq_true, if_false]
    exact integrate_above_ground dt { b with isHeld := false }

/-- Claim C9: `update` on a held body with no hand target supplied is a
complete no-op — the body is returned unchanged. -/
theorem held_update_noop (b : Body) (dt : ℝ) (h : b.isHeld = true) :
    update dt none b = b := by
  unfold update
  simp only [h, if_true]

/-- Witness for C9 at a concrete held body. -/
theorem held_update_noop_witness :
    update 0.016 none (Body.mk ⟨0, 1, 0⟩ ⟨0, 0, 0⟩ ⟨0, 0, 0⟩ ⟨0, 0, 0⟩ true 0.25 1 0)
      = Body.mk ⟨0, 1, 0⟩ ⟨0, 0, 0⟩ ⟨0, 0, 0⟩ ⟨0, 0, 0⟩ true 0.25 1 0 :=
  held_update_noop _ 0.016 rfl

/-- Claim C10: `release` with a zero-length direction still clears the held
flag and still assigns the fresh randomized spin; only the linear velocity
is left at zero (THREE's `normalize` maps the zero vector to itself). -/
theorem release_zero_direction_effects (b : Body) (f : ℝ) (r : Rand3) :
    (release ⟨0, 0, 0⟩ f r b).isHeld = false ∧
    (release ⟨0, 0, 0⟩ f r b).velocity = ⟨0, 0, 0⟩ ∧
    (release ⟨0, 0, 0⟩ f r b).angularVelocity = spinOf r 4 := by
  refine ⟨rfl, ?_, rfl⟩
  show Vec3.scale f (Vec3.normalize ⟨0, 0, 0⟩) = ⟨0, 0, 0⟩
  rw [Vec3.normalize_zero_vec, Vec3.scale_zero_vec]

lemma collidePair_debounced (now : ℝ) (ra rb : Rand3) (a b : Body)
    (h : now - a.lastCollisionTime < 100) : collidePair now ra rb a b = (a, b) := by
  unfold collidePair
  rw [checkCollision_debounced now a b h]
  rfl

lemma foldl_collidePair_const (ra rb : Rand3) (a b : Body) (times : List ℝ)
    (h : ∀ t ∈ times, collidePair t ra rb a b = (a, b)) :
    times.foldl (fun p t => collidePair t ra rb p.1 p.2) (a, b) = (a, b) := by
  induction times with
  | nil => rfl
  | cons t ts ih =>
    rw [List.foldl_cons]
    dsimp only
    rw [h t (List.mem_cons_self t ts)]
    exact ih (fun u hu => h u (List.mem_cons_of_mem t hu))

/-- Claim C4: once a pair has collided at time `T` (stamping the querying
body's `lastCollisionTime` with `T`), every per-tick collision pass run at
a time less than 100 ms after `T` neither reports the collision nor runs
`resolveCollision` for that pair, overlap or not; and a positive
`checkCollision` always stamps the querying body with the current time. -/
theorem collision_debounce_100ms (a b : Body) (ra rb : Rand3) (T : ℝ)
    (times : List ℝ) (hT : a.lastCollisionTime = T)
    (hw : ∀ t ∈ times, t - T < 100) :
    (∀ t ∈ times, (checkCollision t a b).1 = false) ∧
    times.foldl (fun p t => collidePair t ra rb p.1 p.2) (a, b) = (a, b) ∧
    (∀ (t : ℝ) (c d : Body), (checkCollision t c d).1 = true →
      (checkCollision t c d).2.lastCollisionTime = t) := by
  subst hT
  refine ⟨?_, ?_, ?_⟩
  · intro t ht
    rw [checkCollision_debounced t a b (hw t ht)]
  · exact foldl_collidePair_const ra rb a b times
      (fun t ht => collidePair_debounced t ra rb a b (hw t ht))
  · intro t c d h
    rw [(checkCollision_true_elim t c d h).2.2]

/-- Witness for C4: two still-overlapping bodies, last collision stamped at
time 0, are not re-reported at time 50. -/
theorem collision_debounce_100ms_witness :
    (checkCollision 50
        (Body.mk ⟨0, 1, 0⟩ ⟨0, 0, 0⟩ ⟨0, 0, 0⟩ ⟨0, 0, 0⟩ false 0.25 1 0)
        (Body.mk ⟨0, 1, 0.1⟩ ⟨0, 0, 0⟩ ⟨0, 0, 0⟩ ⟨0, 0, 0⟩ false 0.25 1 0)).1 = false :=
  (collision_debounce_100ms
    (Body.mk ⟨0, 1, 0⟩ ⟨0, 0, 0⟩ ⟨0, 0, 0⟩ ⟨0, 0, 0⟩ false 0.25 1 0)
    (Body.mk ⟨0, 1, 0.1⟩ ⟨0, 0, 0⟩ ⟨0, 0, 0⟩ ⟨0, 0, 0⟩ false 0.25 1 0)
    ⟨1, 1, 1⟩ ⟨1, 1, 1⟩ 0 [50] rfl
    (by intro t ht; rw [List.mem_singleton] at ht; subst ht; norm_num)).1
    50 (List.mem_singleton.mpr rfl)

/-- Claim C7 counterexample: with coincident centers `resolveCollision` is
not skipped — the degenerate zero normal gives a zero impulse, but the
random angular-velocity perturbation is still applied to both bodies. -/
theorem resolve_coincident_spin_counterexample :
    (resolveCollision ⟨1, 1, 1⟩ ⟨1, 1, 1⟩
        (Body.mk ⟨0, 1, 0⟩ ⟨0, 0, 0⟩ ⟨0, 0, 0⟩ ⟨0, 0, 0⟩ false 0.25 1 0)
        (Body.mk ⟨0, 1, 0⟩ ⟨0, 0, 0⟩ ⟨0, 0, 0⟩ ⟨0, 0, 0⟩ false 0.25 1 0)).1.angularVelocity
      ≠ ⟨0, 0, 0⟩ := by
  unfold resolveCollision
  dsimp only
  simp only [Vec3.sub_self, Vec3.normalize_zero_vec, Vec3.dot_zero_right]
  rw [if_neg (by norm_num : ¬ (0 : ℝ) > 0)]
  dsimp only
  simp only [Vec3.add, spinOf, Vec3.mk.injEq]
  norm_num

/-- Claim C7, amended: for coincident centers there is no explicit guard;
the zero normal makes the impulse and the positional correction vanish, so
velocities and positions are unchanged, but both bodies still receive the
random angular-velocity perturbation. -/
theorem resolve_coincident_amended (a b : Body) (ra rb : Rand3)
    (h : a.position = b.position) :
    (resolveCollision ra rb a b).1.velocity = a.velocity ∧
    (resolveCollision ra rb a b).2.velocity = b.velocity ∧
    (resolveCollision ra rb a b).1.position = a.position ∧
    (resolveCollision ra rb a b).2.position = b.position ∧
    (resolveCollision ra rb a b).1.angularVelocity
      = Vec3.add a.angularVelocity (spinOf ra 0.8) ∧
    (resolveCollision ra rb a b).2.angularVelocity
      = Vec3.add b.angularVelocity (spinOf rb 0.8) := by
  unfold resolveCollision
  dsimp only
  rw [h]
  simp only [Vec3.sub_self, Vec3.normalize_zero_vec, Vec3.dot_zero_right]
  rw [if_neg (by norm_num : ¬ (0 : ℝ) > 0)]
  dsimp only
  split_ifs <;>
    simp [Vec3.scale_zero_vec, Vec3.add_zero_vec, Vec3.sub_zero_vec]

/-- Witness for C7's amended theorem at two concrete coincident bodies. -/
theorem resolve_coincident_amended_witness :
    (resolveCollision ⟨1, 1, 1⟩ ⟨0, 0, 0⟩
        (Body.mk ⟨2, 1, 0⟩ ⟨0, 0, 0⟩ ⟨1, 0, 0⟩ ⟨0, 0, 0⟩ false 0.25 1 0)
        (Body.mk ⟨2, 1, 0⟩ ⟨0, 0, 0⟩ ⟨0, 0, 1⟩ ⟨0, 0, 0⟩ false 0.25 1 0)).1.velocity
      = ⟨1, 0, 0⟩ :=
  (resolve_coincident_amended
    (Body.mk ⟨2, 1, 0⟩ ⟨0, 0, 0⟩ ⟨1, 0, 0⟩ ⟨0, 0, 0⟩ false 0.25 1 0)
    (Body.mk ⟨2, 1, 0⟩ ⟨0, 0, 0⟩ ⟨0, 0, 1⟩ ⟨0, 0, 0⟩ false 0.25 1 0)
    ⟨1, 1, 1⟩ ⟨0, 0, 0⟩ rfl).1

lemma default_dir_length_ne : Vec3.length ⟨0, 0.3, -1⟩ ≠ 0 := by
  unfold Vec3.length
  exact ne_of_gt (Real.sqrt_pos.mpr (by norm_num))

lemma computeThrow_short (cam : Vec3) (hist : List Vec3) (dt : ℝ)
    (h : hist.length < 2) :
    computeThrow cam hist dt = (Vec3.normalize ⟨0, 0.3, -1⟩, THROW_FORCE) := by
  unfold computeThrow
  dsimp only
  rw [if_neg (by omega : ¬ 2 ≤ hist.length)]
  dsimp only
  rw [Vec3.length_normalize _ default_dir_length_ne,
    if_neg (by norm_num : ¬ (1 : ℝ) < 0.1)]

/-- Claim C6: grabbing a body and immediately releasing it while the
position history holds fewer than two samples gives it velocity equal to
the default direction `(0, 0.3, -1)` normalized, scaled by base force 15. -/
theorem default_throw_roundtrip (b : Body) (hist : List Vec3) (cam : Vec3)
    (dt : ℝ) (r : Rand3) (h : hist.length < 2) :
    (release (computeThrow cam hist dt).1 (computeThrow cam hist dt).2 r
        (grab b)).velocity
      = Vec3.scale 15 (Vec3.normalize ⟨0, 0.3, -1⟩) := by
  rw [computeThrow_short cam hist dt h]
  show Vec3.scale THROW_FORCE (Vec3.normalize (Vec3.normalize ⟨0, 0.3, -1⟩)) = _
  rw [Vec3.normalize_idem _ default_dir_length_ne]
  rfl

/-- Witness for C6: empty history, concrete body. -/
theorem default_throw_roundtrip_witness :
    (release (computeThrow ⟨0, 0, -1⟩ [] 0.016).1
        (computeThrow ⟨0, 0, -1⟩ [] 0.016).2 ⟨1, 1, 1⟩
        (grab (Body.mk ⟨0, 1, 0⟩ ⟨0, 0, 0⟩ ⟨0, 0, 0⟩ ⟨0, 0, 0⟩ false 0.25 1 0))).velocity
      = Vec3.scale 15 (Vec3.normalize ⟨0, 0.3, -1⟩) :=
  default_throw_roundtrip
    (Body.mk ⟨0, 1, 0⟩ ⟨0, 0, 0⟩ ⟨0, 0, 0⟩ ⟨0, 0, 0⟩ false 0.25 1 0)
    [] ⟨0, 0, -1⟩ 0.016 ⟨1, 1, 1⟩ (by simp)

lemma throw_scenario2_eval :
    computeThrow ⟨0, 0, -1⟩ [⟨0, 0, 0⟩, ⟨0, 0, 0.5⟩] 0.016
      = (Vec3.normalize ⟨0, 0.2, 1.25⟩, 22.5) := by
  have hsub : Vec3.sub ⟨0, 0, 0.5⟩ ⟨0, 0, 0⟩ = (⟨0, 0, 0.5⟩ : Vec3) := by
    unfold Vec3.sub
    norm_num
  have hlen : Vec3.length ⟨0, 0, 0.5⟩ = 0.5 := by
    unfold Vec3.length
    exact sqrt_eval (by norm_num) (by norm_num)
  have hampne : Vec3.length ⟨0, 0.2, 1.25⟩ ≠ 0 := by
    unfold Vec3.length
    exact ne_of_gt (Real.sqrt_pos.mpr (by norm_num))
  have hdirlen : Vec3.length (Vec3.normalize ⟨0, 0.2, 1.25⟩) = 1 :=
    Vec3.length_normalize _ hampne
  have hmax : (max 0.2 0 : ℝ) = 0.2 := max_eq_left (by norm_num)
  unfold computeThrow
  dsimp only
  rw [show ([⟨0, 0, 0⟩, ⟨0, 0, 0.5⟩] : List Vec3).length = 2 from rfl,
    if_pos (by norm_num : (2 : ℕ) ≤ 2),
    show (([⟨0, 0, 0⟩, ⟨0, 0, 0.5⟩] : List Vec3).getD 0 ⟨0, 0, 0⟩) = ⟨0, 0, 0⟩ from rfl,
    show (([⟨0, 0, 0⟩, ⟨0, 0, 0.5⟩] : List Vec3).getD (2 - 1) ⟨0, 0, 0⟩) = ⟨0, 0, 0.5⟩ from rfl,
    hsub, hlen, if_pos (by norm_num : (0.5 : ℝ) > 0.05)]
  dsimp only
  rw [show (⟨0 * 2.5, max 0.2 0, 0.5 * 2.5⟩ : Vec3) = ⟨0, 0.2, 1.25⟩ by
        rw [hmax]; norm_num,
    hdirlen]
  rw [if_neg (by norm_num : ¬ (1 : ℝ) < 0.1)]
  refine Prod.ext rfl ?_
  show min (THROW_FORCE * 1.5) (max (THROW_FORCE * 0.7) (1 / (((2 : ℕ) : ℝ) * 0.016) * 5))
      = 22.5
  unfold THROW_FORCE
  norm_num [min_def, max_def]

/-- Claim C1 counterexample: for hand history `[(0,0,0),(0,0,0.5)]` and
`dt = 0.016` the computed throw force is 22.5, not the clamped hand speed
`0.5 / (2 * 0.016)` the claim states (the source normalizes `throwVector`
in place before reading its length for the speed). -/
theorem throw_force_scenario2_counterexample :
    (computeThrow ⟨0, 0, -1⟩ [⟨0, 0, 0⟩, ⟨0, 0, 0.5⟩] 0.016).2 = 22.5 ∧
    (22.5 : ℝ) ≠ 0.5 / (2 * 0.016) :=
  ⟨by rw [throw_scenario2_eval], by norm_num⟩

/-- Claim C1, amended: in scenario 2 the throw vector is `(0,0,0.5)` with
magnitude `0.5 > 0.05` and the direction is the normalization of the
amplified-and-floored vector `(0, 0.2, 1.25)`, but the speed is read from
the throw vector after it has been amplified and normalized in place, so
`handSpeed = 1 / (2 * 0.016)` and the force is `handSpeed * 5` clamped to
`[10.5, 22.5]`, i.e. `throwForce = 22.5`. -/
theorem throw_scenario2_amended :
    Vec3.length (Vec3.sub ⟨0, 0, 0.5⟩ ⟨0, 0, 0⟩) = 0.5 ∧ (0.05 : ℝ) < 0.5 ∧
    computeThrow ⟨0, 0, -1⟩ [⟨0, 0, 0⟩, ⟨0, 0, 0.5⟩] 0.016
      = (Vec3.normalize ⟨0, 0.2, 1.25⟩, 22.5) := by
  refine ⟨?_, by norm_num, throw_scenario2_eval⟩
  rw [show Vec3.sub ⟨0, 0, 0.5⟩ ⟨0, 0, 0⟩ = (⟨0, 0, 0.5⟩ : Vec3) by
        unfold Vec3.sub; norm_num]
  unfold Vec3.length
  exact sqrt_eval (by norm_num) (by norm_num)

/-- Claim C5: a smaller mean pairwise landmark spread (hand appears
smaller/farther) gives a depth estimate at least as large. -/
theorem depth_estimate_antitone (l1 l2 : List Landmark)
    (h1 : ¬ l1.length < 5) (h2 : ¬ l2.length < 5)
    (hs : avgSize l2 < avgSize l1) :
    estimateDepth (some l1) ≤ estimateDepth (some l2) := by
  unfold estimateDepth
  dsimp only
  rw [if_neg h1, if_neg h2]
  have hdiv : (avgSize l2 - 0.05) / (0.3 - 0.05) ≤ (avgSize l1 - 0.05) / (0.3 - 0.05) :=
    div_le_div_of_nonneg_right (by linarith) (by norm_num)
  have hm : max 0 (min 1 ((avgSize l2 - 0.05) / (0.3 - 0.05)))
      ≤ max 0 (min 1 ((avgSize l1 - 0.05) / (0.3 - 0.05))) :=
    max_le_max le_rfl (min_le_min le_rfl hdiv)
  linarith

lemma avgSize_five_zero :
    avgSize [⟨0, 0⟩, ⟨0, 0⟩, ⟨0, 0⟩, ⟨0, 0⟩, ⟨0, 0⟩] = 0 := by
  unfold avgSize totalSpread refPairs lmGet dist2
  norm_num [List.getD]

lemma avgSize_five_spread :
    avgSize [⟨1, 0⟩, ⟨0, 0⟩, ⟨0, 0⟩, ⟨0, 0⟩, ⟨0, 0⟩] = 0.4 := by
  have h1 : dist2 ⟨1, 0⟩ ⟨0, 0⟩ = 1 := by
    unfold dist2
    exact sqrt_eval (by norm_num) (by norm_num)
  have h0 : dist2 ⟨0, 0⟩ ⟨0, 0⟩ = 0 := by
    unfold dist2
    exact sqrt_eval (by norm_num) (by norm_num)
  unfold avgSize totalSpread refPairs lmGet
  norm_num [List.getD, h1, h0]

/-- Witness for C5: all-coincident landmarks (spread 0) versus one spread
configuration (mean spread 0.4). -/
theorem depth_estimate_antitone_witness :
    estimateDepth (some [⟨1, 0⟩, ⟨0, 0⟩, ⟨0, 0⟩, ⟨0, 0⟩, ⟨0, 0⟩])
      ≤ estimateDepth (some [⟨0, 0⟩, ⟨0, 0⟩, ⟨0, 0⟩, ⟨0, 0⟩, ⟨0, 0⟩]) :=
  depth_estimate_antitone _ _ (by norm_num) (by norm_num)
    (by rw [avgSize_five_zero, avgSize_five_spread]; norm_num)

lemma pushTrim_length (hist : List Vec3) (p : Vec3) :
    (pushTrim hist p).length
      = if THROW_HISTORY_LENGTH < hist.length + 1 then hist.length
        else hist.length + 1 := by
  unfold pushTrim
  dsimp only
  rw [show (hist ++ [p]).length = hist.length + 1 by simp]
  split_ifs with h
  · simp
  · simp

lemma pushTrim_getLastD (hist : List Vec3) (p : Vec3) (d : Vec3) :
    (pushTrim hist p).getLastD d = p := by
  unfold pushTrim
  dsimp only
  split_ifs with h
  · cases hist with
    | nil => norm_num [THROW_HISTORY_LENGTH] at h
    | cons x xs =>
      rw [List.cons_append, List.drop_succ_cons, List.drop_zero]
      simp [List.getLastD_concat]
  · simp [List.getLastD_concat]

/-- Claim C8 counterexample: while holding, a tick whose hand position
equals the last recorded sample still grows the history (the
hand-indicator section appends unconditionally), refuting "appended only
if it differs from the last recorded sample by more than 0.01". -/
theorem history_append_counterexample :
    holdingHistoryTick ⟨0, 0, 0⟩ [⟨0, 0, 0⟩] ≠ [⟨0, 0, 0⟩] := by
  have heval : holdingHistoryTick ⟨0, 0, 0⟩ [⟨0, 0, 0⟩]
      = [⟨0, 0, 0⟩, ⟨0, 0, 0⟩] := by
    unfold holdingHistoryTick pushTrim
    norm_num [THROW_HISTORY_LENGTH, distanceTo_self, List.getLastD]
  rw [heval]
  simp

/-- Claim C8, amended: while holding with a hand present, each tick appends
the current hand position to the history unconditionally (in the
hand-indicator section); the 0.01-guarded append of the holding branch then
never fires, because the last recorded sample is the just-appended current
position; the history stays capacity-bounded at 5 with the oldest sample
evicted first. -/
theorem holding_history_unconditional (pos : Vec3) (hist : List Vec3)
    (hlen : hist.length ≤ 5) :
    holdingHistoryTick pos hist = pushTrim hist pos ∧
    (holdingHistoryTick pos hist).length ≤ 5 := by
  have hne : 0 < (pushTrim hist pos).length := by
    rw [pushTrim_length]
    split_ifs with h
    · unfold THROW_HISTORY_LENGTH at h
      omega
    · omega
  have heq : holdingHistoryTick pos hist = pushTrim hist pos := by
    unfold holdingHistoryTick
    dsimp only
    rw [if_pos hne, pushTrim_getLastD, distanceTo_self,
      if_neg (by norm_num : ¬ (0 : ℝ) > 0.01)]
  refine ⟨heq, ?_⟩
  rw [heq, pushTrim_length]
  unfold THROW_HISTORY_LENGTH
  split_ifs with h
  · omega
  · omega

/-- Witness for C8's amended theorem: a full 5-sample history shifts its
oldest sample out when the new position is appended. -/
theorem holding_history_unconditional_witness :
    holdingHistoryTick ⟨5, 5, 5⟩ [⟨0, 0, 0⟩, ⟨1, 1, 1⟩, ⟨2, 2, 2⟩, ⟨3, 3, 3⟩, ⟨4, 4, 4⟩]
      = pushTrim [⟨0, 0, 0⟩, ⟨1, 1, 1⟩, ⟨2, 2, 2⟩, ⟨3, 3, 3⟩, ⟨4, 4, 4⟩] ⟨5, 5, 5⟩ :=
  (holding_history_unconditional ⟨5, 5, 5⟩
    [⟨0, 0, 0⟩, ⟨1, 1, 1⟩, ⟨2, 2, 2⟩, ⟨3, 3, 3⟩, ⟨4, 4, 4⟩] (by simp)).1

end

end GrabThrow
